import Mathlib

/-!
Verification development for the DGE Executive Summary Generator (app.py, v8.0).

The program reads a spreadsheet, derives a pronoun per row, renders a large
instruction prompt per row, performs one remote model call per row, collects
either the generated text or a fixed failure placeholder, and appends the
results as one extra column of the output spreadsheet.

Modelling conventions:
* Spreadsheet cells are `Value` (string, rational number, or missing `na`,
  mirroring pandas NaN).  A row is a total map from column names to cells;
  a lookup of a column that is absent from the frame (pandas `KeyError`)
  is modelled by `rowGet` returning `Except.error`, which propagates to the
  top-level handler (`RunResult.crashed`), mirroring the script's outermost
  `try/except`.
* Python floats are modelled as rationals.  The textual rendering of a float
  (`f-string` interpolation) is abstracted as `ratRepr`; no property below
  depends on the exact digits, only on the fact that such a rendering is a
  digit string, which can never equal the gender letters "M" or "F".
* `str.upper`/`str.strip` are modelled at the ASCII level (`pyUpper`,
  `pyStrip`); all values the properties quantify over are ASCII.
* The remote Azure OpenAI interaction (client construction plus the chat
  completion request of `generate_summary_azure`) is abstracted as one
  oracle `remote : String → Except String String`: the prompt goes in, the
  raw response text or the raised exception's text comes out.  Every oracle
  invocation is recorded as an `Event.apiCall` in an explicit event log;
  `st.error` and `st.warning` are recorded as `Event.errorMsg` and
  `Event.warningMsg` (purely informational UI output such as `st.write`,
  `st.success` and the progress bar is not modelled).
-/

set_option maxRecDepth 8000

namespace DGE

/-- A spreadsheet cell: a string, a numeric value, or missing (pandas NaN). -/
inductive Value where
  | str (s : String)
  | num (q : ℚ)
  | na
deriving DecidableEq

/-- A row maps column names to cells (total; column presence is tracked by
the frame's column list, see `rowGet`). -/
def Row : Type := String → Value

/-- A data frame: the ordered column list and the ordered rows. -/
structure DataFrame where
  cols : List String
  rows : List Row

/-- Abstraction of Python's textual rendering of a float value: the
rational's numerator and denominator.  It is a string of digits and a
slash, hence in particular never equal to "M" or "F" after uppercasing. -/
def ratRepr (q : ℚ) : String :=
  toString q.num ++ "/" ++ toString q.den

/-- Python `str()` of a cell value: strings render as themselves, numbers
via `ratRepr`, and NaN renders as "nan". -/
def pyStr : Value → String
  | .str s => s
  | .num q => ratRepr q
  | .na => "nan"

/-- ASCII uppercase of one character (model of `str.upper` per character). -/
def pyUpperChar (c : Char) : Char :=
  if 'a' ≤ c ∧ c ≤ 'z' then Char.ofNat (c.toNat - 32) else c

/-- Model of Python `str.upper` (ASCII level). -/
def pyUpper (s : String) : String := String.mk (s.data.map pyUpperChar)

/-- Whitespace recognised by the model of `str.strip`. -/
def isWsChar (c : Char) : Bool := c = ' ' || c = '\t' || c = '\n' || c = '\r'

/-- Model of Python `str.strip`: drop whitespace from both ends. -/
def pyStrip (s : String) : String :=
  String.mk ((s.data.dropWhile isWsChar).reverse.dropWhile isWsChar).reverse

/-- `pd.notna`: true for every present cell, false for NaN. -/
def pdNotna : Value → Bool
  | .na => false
  | _ => true

/-- A cell that is either numeric or missing — the shape §6 of the spec
requires of competency-score cells in a valid upload. -/
def isNumOrNa : Value → Bool
  | .num _ => true
  | .na => true
  | .str _ => false

/-- Python `float()` applied to a cell.  Numbers convert to themselves.
Non-numeric cells raise (`Except.error`): in the script this exception
escapes to the outermost `try/except` and aborts the whole batch.  (The
branch is unreachable for uploads satisfying the §6 input contract, and
`float` is only ever applied behind a `pd.notna` guard.) -/
def pyFloat : Value → Except Unit ℚ
  | .num q => .ok q
  | _ => .error ()

/-- Python truthiness of an optional string: `None` and the empty string
are falsy, every other string is truthy. -/
def pyTruthy : Option String → Bool
  | none => false
  | some s => !s.data.isEmpty

/-- `identifier_cols` of app.py (defined by the script, line 191). -/
def identifier_cols : List String :=
  ["email", "salutation_name", "gender", "level"]

/-- The fixed 8-name allowlist `all_known_competencies` (app.py lines 192-196). -/
def all_known_competencies : List String :=
  ["Strategic Thinker", "Impactful Decision Maker", "Effective Collaborator",
   "Talent Nurturer", "Results Driver", "Customer Advocate",
   "Transformation Enabler", "Innovation Explorer"]

/-- `competency_columns = [col for col in df.columns if col in all_known_competencies]`
(app.py line 197). -/
def competencyColumns (cols : List String) : List String :=
  cols.filter (fun col => decide (col ∈ all_known_competencies))

/-- Indexing a pandas row by a column label: the value if the column exists
in the frame, a `KeyError` (modelled as `Except.error`) otherwise. -/
def rowGet (cols : List String) (row : Row) (c : String) : Except Unit Value :=
  if c ∈ cols then .ok (row c) else .error ()

/-- Pronoun derivation of app.py lines 208-215:
`str(row['gender']).upper()`, then `'M' → 'He'`, `'F' → 'She'`, anything
else `'They'`.  The boolean records whether the anomalous branch (and
hence the `st.warning`) was taken. -/
def pronounOf (genderCell : Value) : String × Bool :=
  let gender_input := pyUpper (pyStr genderCell)
  if gender_input = "M" then ("He", false)
  else if gender_input = "F" then ("She", false)
  else ("They", true)

/-- The `st.warning` text of app.py line 215. -/
def warnText (genderCell : Value) (salutation_name : String) : String :=
  "Invalid or missing gender \x27" ++ pyStr genderCell ++ "\x27 for " ++
    salutation_name ++ ". Defaulting to pronoun \x27They\x27."

/-- One line of `scores_data`: `f"- {competency}: {float(row[competency])}"`
(app.py line 222). -/
def renderScore (c : String) (q : ℚ) : String :=
  "- " ++ c ++ ": " ++ ratRepr q

/-- The `scores_data` loop of app.py lines 219-222 over a given column list:
keep a line for every column present in the row whose cell is not NaN,
converting the cell with `float()` (whose failure aborts, see `pyFloat`). -/
def scoresLinesE (cols : List String) (row : Row) : List String → Except Unit (List String)
  | [] => .ok []
  | c :: cs =>
    if c ∈ cols ∧ pdNotna (row c) = true then
      match pyFloat (row c) with
      | .error e => .error e
      | .ok q =>
        match scoresLinesE cols row cs with
        | .error e => .error e
        | .ok rest => .ok (renderScore c q :: rest)
    else scoresLinesE cols row cs

/-- `scores_data` for one row: the loop runs over `competency_columns`. -/
def scoresDataE (cols : List String) (row : Row) : Except Unit (List String) :=
  scoresLinesE cols row (competencyColumns cols)

/-- The (name, score) pairs extracted for one row: the data-level view of
the `scores_data` loop (same guards, value instead of rendered line). -/
def rowScoresAux (cols : List String) (row : Row) : List String → List (String × ℚ)
  | [] => []
  | c :: cs =>
    if c ∈ cols ∧ pdNotna (row c) = true then
      match row c with
      | .num q => (c, q) :: rowScoresAux cols row cs
      | _ => rowScoresAux cols row cs
    else rowScoresAux cols row cs

/-- The competency list of one row's person record. -/
def rowScores (cols : List String) (row : Row) : List (String × ℚ) :=
  rowScoresAux cols row (competencyColumns cols)

/-!
The master prompt template of `create_master_prompt` (app.py lines 22-103),
reproduced verbatim from the source f-string.  The template is split into
its visual sections so that individual portions (the opening-sentence
protocol of directive 1, the name-and-pronoun-usage directive 3) are
addressable; their concatenation is exactly the f-string's text.
Apostrophes are written `\x27`, the U+2019 quotes of the Fatema example
`\u2019`, and the dash-run separator lines `\x2d`; the rendering of the
interpolated values is unchanged.
-/

def ruleALine : String :=
  "    * **Rule A: If the highest score is 3.5 or greater (>= 3.5):**\n"

def ruleBLine : String :=
  "    * **Rule B: If the highest score is between 2.5 and 3.49 (inclusive):**\n"

def ruleCLine : String :=
  "    * **Rule C: If the highest score is less than 2.5 (< 2.5):**\n"

def promptPre (salutation_name : String) (person_data : String) : String :=
  "\n" ++
  "You are an elite talent management consultant from a top-tier firm. Your writing is strategic, cohesive, and you follow instructions with absolute precision.\n" ++
  "\n" ++
  "## NON-NEGOTIABLE CORE RULES\n" ++
  "1.  **Language:** The entire summary MUST be written in **British English**.\n" ++
  "2.  **Structure:** The entire summary MUST be a **single, unified paragraph**. There can be no deviation from this rule.\n" ++
  "3.  **Competencies:** You MUST NOT use the exact name of a competency (e.g., \"Results Driver\", \"Strategic Thinker\") in the narrative. Instead, you MUST describe the behavior using a verb phrase (e.g., \"...demonstrated an ability to drive results,\" or \"...showcased strategic thinking.\").\n" ++
  "\n" ++
  "## Core Objective\n" ++
  "Synthesize the provided competency data for " ++
  salutation_name ++
  " into a single, cohesive, and integrated narrative paragraph that adheres to all core rules.\n" ++
  "\n" ++
  "## Input Data for " ++
  salutation_name ++
  "\n" ++
  "<InputData>\n" ++
  person_data ++
  "\n" ++
  "</InputData>\n" ++
  "\n" ++
  "## \x2d\x2d\x2d\x2d\x2d\x2d\x2d\x2d\x2d\x2d\x2d\x2d\x2d\x2d\x2d\x2d\x2d\x2d\x2d\x2d\x2d\x2d\x2d\x2d\x2d\x2d\x2d\x2d\x2d\x2d\x2d\x2d\x2d\x2d\x2d\x2d\x2d\x2d\x2d\x2d\x2d\x2d\x2d\x2d\x2d\n" ++
  "## CRITICAL DIRECTIVES FOR SUMMARY STRUCTURE & TONE\n" ++
  "## \x2d\x2d\x2d\x2d\x2d\x2d\x2d\x2d\x2d\x2d\x2d\x2d\x2d\x2d\x2d\x2d\x2d\x2d\x2d\x2d\x2d\x2d\x2d\x2d\x2d\x2d\x2d\x2d\x2d\x2d\x2d\x2d\x2d\x2d\x2d\x2d\x2d\x2d\x2d\x2d\x2d\x2d\x2d\x2d\x2d\n" ++
  "\n"

def openingSentenceProtocol (salutation_name : String) : String :=
  "1.  **CRITICAL OPENING SENTENCE PROTOCOL (CONDITIONAL LOGIC):**\n" ++
  "    * You must first identify the single highest numerical score in the input data and then follow the appropriate rule below.\n" ++
  "\n" ++
  ruleALine ++
  "        * The first sentence **MUST** follow one of these four exact formats, reflecting a clear strength:\n" ++
  "            1.  `" ++
  salutation_name ++
  " evidenced a strong ability to [highest scoring competency verb phrase].`\n" ++
  "            2.  `" ++
  salutation_name ++
  " evidenced a strong capacity to [highest scoring competency verb phrase].`\n" ++
  "            3.  `" ++
  salutation_name ++
  " demonstrated a strong ability to [highest scoring competency verb phrase].`\n" ++
  "            4.  `" ++
  salutation_name ++
  " demonstrated a strong capacity to [highest scoring competency verb phrase].`\n" ++
  "\n" ++
  ruleBLine ++
  "        * The first sentence **MUST** follow one of these two formats, reflecting competence:\n" ++
  "            1.  `" ++
  salutation_name ++
  " evidenced the competence to [highest scoring competency verb phrase].`\n" ++
  "            2.  `" ++
  salutation_name ++
  " demonstrated the competence to [highest scoring competency verb phrase].`\n" ++
  "\n" ++
  ruleCLine ++
  "        * You **MUST NOT** use any of the formulaic opening sentences from Rule A or B.\n" ++
  "        * Instead, the summary must begin immediately by describing the most positive observed behavior, even if it\x27s not a formal strength.\n" ++
  "        * **You must learn from and replicate the style of the \x27Fatema\x27 example provided below for this specific case.**\n" ++
  "\n"

def structureAfterOpening : String :=
  "2.  **STRUCTURE AFTER OPENING: The Integrated Feedback Loop.**\n" ++
  "    * After the opening sentence (or from the beginning, in the case of Rule C), the rest of the paragraph **MUST** address each competency one by one in a logical flow.\n" ++
  "    * For each competency, you will first describe the **observed positive behavior** (the strength).\n" ++
  "    * Then, **IMMEDIATELY AFTER** describing the behavior, you will provide the **related development area** for that same competency, introduced with a phrase like \"As a next step...\", \"To build on this...\", or \"Fatema may benefit from...\".\n" ++
  "\n"

def pronounDirective (pronoun : String) : String :=
  "Thereafter, use the pronoun **" ++ pronoun ++ "**."

def namePronounUsage (salutation_name : String) (pronoun : String) : String :=
  "3.  **Name and Pronoun Usage:**\n" ++
  "    * Use the candidate\x27s full salutation name, **" ++
  salutation_name ++
  "**, only in the first sentence (if applicable). " ++
  pronounDirective pronoun ++
  "\n" ++
  "\n"

def promptPost (salutation_name : String) : String :=
  "## \x2d\x2d\x2d\x2d\x2d\x2d\x2d\x2d\x2d\x2d\x2d\x2d\x2d\x2d\x2d\x2d\x2d\x2d\x2d\x2d\x2d\x2d\x2d\x2d\x2d\x2d\x2d\x2d\x2d\x2d\x2d\x2d\x2d\x2d\x2d\x2d\x2d\x2d\x2d\x2d\x2d\x2d\x2d\x2d\x2d\n" ++
  "## ANALYSIS OF GOLD-STANDARD EXAMPLES (INTERNALIZE ALL LOGIC)\n" ++
  "## \x2d\x2d\x2d\x2d\x2d\x2d\x2d\x2d\x2d\x2d\x2d\x2d\x2d\x2d\x2d\x2d\x2d\x2d\x2d\x2d\x2d\x2d\x2d\x2d\x2d\x2d\x2d\x2d\x2d\x2d\x2d\x2d\x2d\x2d\x2d\x2d\x2d\x2d\x2d\x2d\x2d\x2d\x2d\x2d\x2d\n" ++
  "\n" ++
  "**Example 1: Khasiba (Highest Score >= 3.5)**\n" ++
  "* **Logic:** Follows Rule A. The summary begins with a \"strong ability/capacity\" sentence based on her highest score. The rest of the paragraph follows the Integrated Feedback Loop.\n" ++
  "* **Correct Output:** \"Khasiba demonstrated a strong ability to drive results. She consistently evidenced the ability to analyse complex scenarios... To build on this, she could focus on refining her ability to evaluate complex, high-stakes scenarios...\"\n" ++
  "\n" ++
  "**Example 2: Fatema (Highest Score < 2.5)**\n" ++
  "* **Analysis:** This is the gold standard for Rule C. Notice how it does **not** have a formal opening sentence.\n" ++
  "* **Logic:** It begins immediately by describing her most positive observed behavior from her highest-scoring competency (Effective Collaborator: 2.47). It then seamlessly moves into the Integrated Feedback Loop for all other competencies. The tone is constructive and developmental.\n" ++
  "* **Correct Output:** \"Fatema evidenced collaboration by engaging positively with different parties, internally and externally, offering support and ensuring shared goals were properly achieved. To further develop her skills, Fatema may need to strengthen her self-confidence and the ability to communicate clearly, especially when facing stressful situations. Adapting her communication style, articulating compelling reasoning for her arguments and understanding stakeholders\u2019 diverse needs and perspectives, could help enhance her influence, conflict management and collaboration. She demonstrated customer advocacy through resolving customers\u2019 issues and fulfilling their requirements, and showed awareness of emerging trends and their potential impact on the organisation. Fatema may benefit from identifying customers\u2019 needs and adopting service standards that would enhance quality and improve customer experience...\"\n" ++
  "\n" ++
  "## \x2d\x2d\x2d\x2d\x2d\x2d\x2d\x2d\x2d\x2d\x2d\x2d\x2d\x2d\x2d\x2d\x2d\x2d\x2d\x2d\x2d\x2d\x2d\x2d\x2d\x2d\x2d\x2d\x2d\x2d\x2d\x2d\x2d\x2d\x2d\x2d\x2d\x2d\x2d\x2d\x2d\x2d\x2d\x2d\x2d\n" ++
  "## FINAL INSTRUCTIONS\n" ++
  "## \x2d\x2d\x2d\x2d\x2d\x2d\x2d\x2d\x2d\x2d\x2d\x2d\x2d\x2d\x2d\x2d\x2d\x2d\x2d\x2d\x2d\x2d\x2d\x2d\x2d\x2d\x2d\x2d\x2d\x2d\x2d\x2d\x2d\x2d\x2d\x2d\x2d\x2d\x2d\x2d\x2d\x2d\x2d\x2d\x2d\n" ++
  "\n" ++
  "Now, process the data for " ++
  salutation_name ++
  ". First, determine which opening sentence rule (A, B, or C) to apply based on the highest score. Then, create a **strict single-paragraph summary** that follows all rules precisely. The total word count should remain between 250-280 words.\n"

/-- `create_master_prompt` (app.py lines 22-103): the concatenation of the
five sections, with the salutation name, pronoun and person data
interpolated exactly where the f-string interpolates them. -/
def create_master_prompt (salutation_name : String) (pronoun : String)
    (person_data : String) : String :=
  promptPre salutation_name person_data ++
  openingSentenceProtocol salutation_name ++
  structureAfterOpening ++
  namePronounUsage salutation_name pronoun ++
  promptPost salutation_name

/-- The values computed for one row before the remote call (app.py lines
207-225): salutation name, pronoun, the warning message of the anomalous
gender branch (if taken), and the fully rendered prompt. -/
structure RowInfo where
  salutation : String
  pronoun : String
  warnMsg : Option String
  prompt : String
deriving DecidableEq

/-- The per-row preparation of app.py lines 207-225: read the name and
gender cells, derive the pronoun, extract `scores_data`, and render the
master prompt.  Any `KeyError`/`float` failure aborts (outer `except`). -/
def rowInfo (cols : List String) (row : Row) : Except Unit RowInfo :=
  match rowGet cols row "salutation_name" with
  | .error e => .error e
  | .ok nameV =>
  match rowGet cols row "gender" with
  | .error e => .error e
  | .ok genderV =>
  match scoresDataE cols row with
  | .error e => .error e
  | .ok scores =>
    let salutation_name := pyStr nameV
    let pronoun := (pronounOf genderV).1
    let warnMsg := if (pronounOf genderV).2 = true
      then some (warnText genderV salutation_name) else none
    .ok { salutation := salutation_name, pronoun := pronoun, warnMsg := warnMsg,
          prompt := create_master_prompt salutation_name pronoun
            (String.intercalate "\n" scores) }

/-- Observable side effects of the run: remote request attempts
(`apiCall`), `st.error` output and `st.warning` output. -/
inductive Event where
  | apiCall (prompt : String)
  | errorMsg (msg : String)
  | warningMsg (msg : String)
deriving DecidableEq

/-- Whether an event is a remote request attempt. -/
def isCallEvent : Event → Bool
  | .apiCall _ => true
  | _ => false

/-- Whether an event is an `st.error` message. -/
def isErrEvent : Event → Bool
  | .errorMsg _ => true
  | _ => false

/-- Number of remote request attempts recorded in a log. -/
def callCount (log : List Event) : Nat := (log.filter isCallEvent).length

/-- Number of `st.error` messages recorded in a log. -/
def errCount (log : List Event) : Nat := (log.filter isErrEvent).length

/-- The value `generate_summary_azure` hands back to the loop: the
stripped response text on success, `None` when the remote interaction
raised (app.py lines 128-131). -/
def azureResult (remote : String → Except String String) (prompt : String) :
    Option String :=
  match remote prompt with
  | .ok content => some (pyStrip content)
  | .error _ => none

/-- The `st.error` text of app.py line 130. -/
def azureErrText (e : String) : String :=
  "An error occurred while contacting Azure OpenAI: " ++ e

/-- `generate_summary_azure` (app.py lines 106-131): perform exactly one
remote interaction; on success return the stripped response text, on any
exception surface an `st.error` message and return `None`.  The event log
records the single request attempt (and the error message, if any). -/
def generate_summary_azure (remote : String → Except String String)
    (prompt : String) (log : List Event) : Option String × List Event :=
  match remote prompt with
  | .ok content => (some (pyStrip content), log ++ [Event.apiCall prompt])
  | .error e =>
      (none, log ++ [Event.apiCall prompt, Event.errorMsg (azureErrText e)])

/-- The fixed failure placeholder appended for a failed row (app.py line 232). -/
def failText : String := "Error: Failed to generate summary."

/-- The `st.error` text of app.py line 233. -/
def rowFailText (salutation : String) : String :=
  "Failed to generate summary for " ++ salutation ++ "."

/-- The success/failure branch of the batch loop (app.py lines 228-233):
append the summary if it is truthy, the failure placeholder otherwise. -/
def entryOf (summary : Option String) : String :=
  if pyTruthy summary = true then summary.getD "" else failText

/-- One iteration of the batch loop (app.py lines 206-235): prepare the
row, emit the gender warning if any, call `generate_summary_azure`, and
produce the row's output entry (or abort on an uncaught exception). -/
def processRow (remote : String → Except String String) (cols : List String)
    (row : Row) (log : List Event) : Except Unit String × List Event :=
  match rowInfo cols row with
  | .error e => (.error e, log)
  | .ok info =>
    let log1 := match info.warnMsg with
      | some m => log ++ [Event.warningMsg m]
      | none => log
    match generate_summary_azure remote info.prompt log1 with
    | (summary, log2) =>
      if pyTruthy summary = true then (.ok (summary.getD ""), log2)
      else (.ok failText, log2 ++ [Event.errorMsg (rowFailText info.salutation)])

/-- The entry a row contributes to `generated_summaries`, as a pure value
(the first component of `processRow`, which does not depend on the log). -/
def rowResult (remote : String → Except String String) (cols : List String)
    (row : Row) : Except Unit String :=
  match rowInfo cols row with
  | .error e => .error e
  | .ok info => .ok (entryOf (azureResult remote info.prompt))

/-- The batch loop `for i, row in df.iterrows()` (app.py lines 203-235):
sequentially process every row, accumulating `generated_summaries` in
input order; an uncaught per-row exception aborts the loop. -/
def runRows (remote : String → Except String String) (cols : List String) :
    List Row → List Event → Except Unit (List String) × List Event
  | [], log => (.ok [], log)
  | r :: rs, log =>
    match processRow remote cols r log with
    | (.error e, log1) => (.error e, log1)
    | (.ok entry, log1) =>
      match runRows remote cols rs log1 with
      | (.error e, log2) => (.error e, log2)
      | (.ok entries, log2) => (.ok (entry :: entries), log2)

/-- The three Azure OpenAI secrets (app.py lines 184-186). -/
structure Credentials where
  api_key : String
  endpoint : String
  deployment_name : String

/-- Outcome of pressing "Generate Summaries": halted for missing secrets,
halted for the missing name column, aborted by an uncaught exception, or
completed with one entry per row. -/
inductive RunResult where
  | missingCredentials
  | missingColumn
  | crashed
  | completed (summaries : List String)
deriving DecidableEq

/-- The `st.error` text of app.py line 188. -/
def credsErrText : String :=
  "Azure OpenAI credentials not found. Please configure them in your Streamlit secrets."

/-- The `st.error` text of app.py line 200. -/
def missingColText : String :=
  "Error: The uploaded file is missing the required \x27salutation_name\x27 column. Please download the new template and try again."

/-- The outermost `except` of app.py line 255 ("An error occurred: {e}";
the exception text itself is not modelled). -/
def genericErrText : String := "An error occurred: "

/-- The "Generate Summaries" handler (app.py lines 182-235): load the
secrets (halting if absent), check the `salutation_name` precondition once
(halting before any remote call if violated), then run the batch loop
under the outermost `try/except`. -/
def generateHandler (secrets : Option Credentials)
    (remote : String → Except String String) (df : DataFrame) :
    RunResult × List Event :=
  match secrets with
  | none => (.missingCredentials, [Event.errorMsg credsErrText])
  | some _ =>
    if "salutation_name" ∈ df.cols then
      match runRows remote df.cols df.rows [] with
      | (.ok entries, log) => (.completed entries, log)
      | (.error _, log) => (.crashed, log ++ [Event.errorMsg genericErrText])
    else (.missingColumn, [Event.errorMsg missingColText])

/-- Overwrite one cell of a row. -/
def updateCell (row : Row) (name : String) (v : Value) : Row :=
  fun c => if c = name then v else row c

/-- pandas column assignment `df[name] = vals` (app.py line 242): if the
label already exists its values are replaced in place, otherwise the
column is appended at the end; each row gets the value at its index. -/
def assignColumn (df : DataFrame) (name : String) (vals : List String) :
    DataFrame :=
  { cols := if name ∈ df.cols then df.cols else df.cols ++ [name],
    rows := List.zipWith (fun r s => updateCell r name (Value.str s)) df.rows vals }

/-- `output_df = df.copy(); output_df['Executive Summary'] = generated_summaries`
(app.py lines 241-242). -/
def outputDf (df : DataFrame) (summaries : List String) : DataFrame :=
  assignColumn df "Executive Summary" summaries

/-- Rule A's condition as stated by the template (`ruleALine`):
"the highest score is 3.5 or greater (>= 3.5)".  `mkRat 7 2 = 3.5`. -/
abbrev ruleA (m : ℚ) : Prop := mkRat 7 2 ≤ m

/-- Rule B's condition as stated by the template (`ruleBLine`):
"the highest score is between 2.5 and 3.49 (inclusive)".
`mkRat 5 2 = 2.5` and `mkRat 349 100 = 3.49`. -/
abbrev ruleB (m : ℚ) : Prop := mkRat 5 2 ≤ m ∧ m ≤ mkRat 349 100

/-- Rule C's condition as stated by the template (`ruleCLine`):
"the highest score is less than 2.5 (< 2.5)". -/
abbrev ruleC (m : ℚ) : Prop := m < mkRat 5 2

/-- The highest competency score of a person record. -/
def highestScore (scores : List (String × ℚ)) : Option ℚ :=
  (scores.map Prod.snd).max?

/-- Number of positions where `pat` occurs in the character list
(occurrences may overlap). -/
def countOccsAux (pat : List Char) : List Char → Nat
  | [] => if pat.isPrefixOf ([] : List Char) then 1 else 0
  | a :: s => (if pat.isPrefixOf (a :: s) then 1 else 0) + countOccsAux pat s

/-- Number of occurrences of `pat` in `s`. -/
def strCount (s pat : String) : Nat := countOccsAux pat.data s.data

/-- A row's entry if it succeeded, the failure placeholder otherwise
(used to express `generated_summaries` as a pure map over the rows). -/
def okOr (x : Except Unit String) : String :=
  match x with
  | .ok s => s
  | .error _ => failText

/-!  Concrete fixtures used by the witness theorems. -/

/-- A concrete credential triple. -/
def cred0 : Credentials :=
  { api_key := "key", endpoint := "https://example.invalid", deployment_name := "gpt" }

/-- An oracle whose every remote interaction raises. -/
def remoteFail : String → Except String String := fun _ => .error "boom"

/-- An oracle whose every remote interaction returns the empty response. -/
def remoteBlank : String → Except String String := fun _ => .ok ""

/-- An oracle whose every remote interaction returns a fixed response. -/
def remoteEcho : String → Except String String := fun _ => .ok " A fine summary. "

/-- A concrete single row: name "Irene", gender "F", nothing else. -/
def row0 : Row := fun c =>
  if c = "salutation_name" then .str "Irene"
  else if c = "gender" then .str "F"
  else .na

/-- A one-row frame with only the name and gender columns. -/
def df0 : DataFrame := { cols := ["salutation_name", "gender"], rows := [row0] }

/-- The `RowInfo` the pipeline computes for `row0` in `df0`. -/
def info0 : RowInfo :=
  { salutation := "Irene", pronoun := "She", warnMsg := none,
    prompt := create_master_prompt "Irene" "She" "" }

/-- A frame without the required `salutation_name` column. -/
def dfNoName : DataFrame := { cols := ["email"], rows := [] }

/-- A row with two populated competency cells, one missing competency
cell, and a numeric cell in a column outside the allowlist. -/
def row1 : Row := fun c =>
  if c = "salutation_name" then .str "Fatema"
  else if c = "gender" then .str "F"
  else if c = "Strategic Thinker" then .num (mkRat 205 100)
  else if c = "Effective Collaborator" then .num (mkRat 247 100)
  else if c = "mystery" then .num (mkRat 4 1)
  else .na

/-- The column list for `row1` (includes an allowlisted column whose cell
is missing, and the non-allowlisted numeric column "mystery"). -/
def cols1 : List String :=
  ["salutation_name", "gender", "Strategic Thinker",
   "Effective Collaborator", "Results Driver", "mystery"]

/-- A row whose frame already carries an "Executive Summary" column. -/
def rowES : Row := fun c =>
  if c = "salutation_name" then .str "A"
  else if c = "Executive Summary" then .str "old"
  else .na

/-- A frame that already has an "Executive Summary" column. -/
def dfES : DataFrame :=
  { cols := ["salutation_name", "Executive Summary"], rows := [rowES] }

/-!  Helper lemmas about the embedded pipeline. -/

/-- Membership in `competency_columns`: a column survives the filter iff it
is a frame column and on the allowlist. -/
theorem mem_competencyColumns (cols : List String) (c : String) :
    c ∈ competencyColumns cols ↔ c ∈ cols ∧ c ∈ all_known_competencies := by
  simp [competencyColumns, List.mem_filter]

/-- `competency_columns` preserves the relative order of the frame columns. -/
theorem competencyColumns_sublist (cols : List String) :
    List.Sublist (competencyColumns cols) cols :=
  List.filter_sublist cols

/-- The score-pair extraction as a `filterMap` over the scanned columns. -/
theorem rowScoresAux_eq (cols : List String) (row : Row) :
    ∀ cs : List String, rowScoresAux cols row cs =
      cs.filterMap (fun c =>
        if c ∈ cols ∧ pdNotna (row c) = true then
          match row c with
          | .num q => some (c, q)
          | _ => none
        else none) := by
  intro cs
  induction cs with
  | nil => rfl
  | cons c cs ih =>
    simp only [rowScoresAux, List.filterMap_cons]
    by_cases h : c ∈ cols ∧ pdNotna (row c) = true
    · rw [if_pos h, if_pos h]
      cases hv : row c with
      | num q => simp [ih]
      | str s => simp [ih]
      | na => simp [ih]
    · rw [if_neg h, if_neg h]
      simp [ih]

/-- Characterisation of the extracted (name, score) pairs. -/
theorem mem_rowScores (cols : List String) (row : Row) (c : String) (q : ℚ) :
    (c, q) ∈ rowScores cols row ↔
      c ∈ cols ∧ c ∈ all_known_competencies ∧ row c = .num q := by
  rw [rowScores, rowScoresAux_eq]
  simp only [List.mem_filterMap, mem_competencyColumns]
  constructor
  · rintro ⟨a, ⟨hacols, haknown⟩, hfa⟩
    by_cases h : a ∈ cols ∧ pdNotna (row a) = true
    · rw [if_pos h] at hfa
      cases hv : row a with
      | num q2 =>
          rw [hv] at hfa
          have hac : a = c := by injection hfa with h1; exact congrArg Prod.fst h1
          have hqq : q2 = q := by injection hfa with h1; exact congrArg Prod.snd h1
          subst hac; subst hqq
          exact ⟨hacols, haknown, hv⟩
      | str s => rw [hv] at hfa; cases hfa
      | na => rw [hv] at hfa; cases hfa
    · rw [if_neg h] at hfa; cases hfa
  · rintro ⟨hc, hk, hv⟩
    refine ⟨c, ⟨hc, hk⟩, ?_⟩
    rw [if_pos ⟨hc, by rw [hv]; rfl⟩, hv]

/-- The extracted pair names form a sublist of the scanned columns. -/
theorem rowScoresAux_fst_sublist (cols : List String) (row : Row) :
    ∀ cs : List String,
      List.Sublist ((rowScoresAux cols row cs).map Prod.fst) cs := by
  intro cs
  induction cs with
  | nil => simp [rowScoresAux]
  | cons c cs ih =>
    simp only [rowScoresAux]
    by_cases h : c ∈ cols ∧ pdNotna (row c) = true
    · rw [if_pos h]
      cases hv : row c with
      | num q => simpa using List.Sublist.cons₂ c ih
      | str s => exact ih.cons c
      | na => exact ih.cons c
    · rw [if_neg h]
      exact ih.cons c

/-- The extracted pair names preserve the input column order. -/
theorem rowScores_fst_sublist (cols : List String) (row : Row) :
    List.Sublist ((rowScores cols row).map Prod.fst) cols :=
  (rowScoresAux_fst_sublist cols row (competencyColumns cols)).trans
    (competencyColumns_sublist cols)

/-- On numeric-or-missing cells, the rendered `scores_data` lines are the
rendering of the extracted pairs (no `float()` failure occurs). -/
theorem scoresLinesE_eq (cols : List String) (row : Row) :
    ∀ cs : List String, (∀ c ∈ cs, isNumOrNa (row c) = true) →
      scoresLinesE cols row cs =
        .ok ((rowScoresAux cols row cs).map (fun p => renderScore p.1 p.2)) := by
  intro cs
  induction cs with
  | nil => intro _; rfl
  | cons c cs ih =>
    intro h
    have hc := h c (by simp)
    have hrest : ∀ c2 ∈ cs, isNumOrNa (row c2) = true :=
      fun c2 hc2 => h c2 (by simp [hc2])
    simp only [scoresLinesE, rowScoresAux]
    by_cases hg : c ∈ cols ∧ pdNotna (row c) = true
    · rw [if_pos hg, if_pos hg]
      cases hv : row c with
      | num q => simp [hv, pyFloat, ih hrest]
      | str s => rw [hv] at hc; simp [isNumOrNa] at hc
      | na =>
          have := hg.2
          rw [hv] at this
          simp [pdNotna] at this
    · rw [if_neg hg, if_neg hg]
      exact ih hrest

/-- `rowInfo` succeeds and computes exactly the name, pronoun, warning and
prompt of app.py lines 207-225 whenever the two required columns exist and
the competency cells are numeric or missing. -/
theorem rowInfo_ok (cols : List String) (row : Row)
    (h1 : "salutation_name" ∈ cols) (h2 : "gender" ∈ cols)
    (hwf : ∀ c ∈ competencyColumns cols, isNumOrNa (row c) = true) :
    rowInfo cols row = .ok
      { salutation := pyStr (row "salutation_name"),
        pronoun := (pronounOf (row "gender")).1,
        warnMsg := if (pronounOf (row "gender")).2 = true
          then some (warnText (row "gender") (pyStr (row "salutation_name")))
          else none,
        prompt := create_master_prompt (pyStr (row "salutation_name"))
          (pronounOf (row "gender")).1
          (String.intercalate "\n"
            ((rowScores cols row).map (fun p => renderScore p.1 p.2))) } := by
  have hs : scoresDataE cols row =
      .ok ((rowScores cols row).map (fun p => renderScore p.1 p.2)) :=
    scoresLinesE_eq cols row (competencyColumns cols) hwf
  simp [rowInfo, rowGet, h1, h2, hs, rowScores]

/-- The entry a row contributes does not depend on the event log. -/
theorem processRow_fst (remote : String → Except String String)
    (cols : List String) (row : Row) (log : List Event) :
    (processRow remote cols row log).1 = rowResult remote cols row := by
  cases hinfo : rowInfo cols row with
  | error e => simp [processRow, rowResult, hinfo]
  | ok info =>
    cases hr : remote info.prompt with
    | ok content =>
      by_cases ht : pyTruthy (some (pyStrip content)) = true
      · simp [processRow, rowResult, hinfo, generate_summary_azure, hr,
          azureResult, entryOf, ht]
      · simp [processRow, rowResult, hinfo, generate_summary_azure, hr,
          azureResult, entryOf, ht]
    | error e =>
      simp [processRow, rowResult, hinfo, generate_summary_azure, hr,
        azureResult, entryOf, pyTruthy]

/-- When every row succeeds, the batch loop returns exactly the map of
per-row results, in input order. -/
theorem runRows_map (remote : String → Except String String)
    (cols : List String) :
    ∀ (rows : List Row), (∀ r ∈ rows, ∃ e, rowResult remote cols r = .ok e) →
      ∀ log, (runRows remote cols rows log).1 =
        .ok (rows.map (fun r => okOr (rowResult remote cols r))) := by
  intro rows
  induction rows with
  | nil => intro _ log; rfl
  | cons r rs ih =>
    intro h log
    obtain ⟨e, he⟩ := h r (by simp)
    have hrest : ∀ r2 ∈ rs, ∃ e2, rowResult remote cols r2 = .ok e2 :=
      fun r2 hr2 => h r2 (by simp [hr2])
    have hfst : (processRow remote cols r log).1 = .ok e := by
      rw [processRow_fst]; exact he
    have hpair : processRow remote cols r log =
        (.ok e, (processRow remote cols r log).2) :=
      Prod.ext hfst rfl
    have hih := ih hrest (processRow remote cols r log).2
    have hpair2 : runRows remote cols rs (processRow remote cols r log).2 =
        (.ok (rs.map (fun r2 => okOr (rowResult remote cols r2))),
         (runRows remote cols rs (processRow remote cols r log).2).2) :=
      Prod.ext hih rfl
    simp only [runRows]
    rw [hpair]
    simp only []
    rw [hpair2]
    simp [okOr, he]

/-- Under the batch preconditions a row's result is a success value. -/
theorem rowResult_ok (remote : String → Except String String)
    (cols : List String) (row : Row)
    (h1 : "salutation_name" ∈ cols) (h2 : "gender" ∈ cols)
    (hwf : ∀ c ∈ competencyColumns cols, isNumOrNa (row c) = true) :
    ∃ e, rowResult remote cols row = .ok e := by
  have hinfo := rowInfo_ok cols row h1 h2 hwf
  exact ⟨_, by rw [rowResult, hinfo]⟩

/-- The handler completes with the per-row map whenever the name column is
present and every row succeeds. -/
theorem generateHandler_completed (df : DataFrame)
    (remote : String → Except String String) (creds : Credentials)
    (h1 : "salutation_name" ∈ df.cols)
    (hok : ∀ r ∈ df.rows, ∃ e, rowResult remote df.cols r = .ok e) :
    (generateHandler (some creds) remote df).1 =
      .completed (df.rows.map (fun r => okOr (rowResult remote df.cols r))) := by
  have h := runRows_map remote df.cols df.rows hok []
  have hpair : runRows remote df.cols df.rows [] =
      (.ok (df.rows.map (fun r => okOr (rowResult remote df.cols r))),
       (runRows remote df.cols df.rows []).2) :=
    Prod.ext h rfl
  simp only [generateHandler]
  rw [if_pos h1, hpair]

/-- A row that prepares successfully always records its gender warning (if
any) in the event log, whatever the remote call does afterwards. -/
theorem processRow_warn_mem (remote : String → Except String String)
    (cols : List String) (row : Row) (log : List Event) (info : RowInfo)
    (w : String) (hinfo : rowInfo cols row = .ok info)
    (hw : info.warnMsg = some w) :
    Event.warningMsg w ∈ (processRow remote cols row log).2 := by
  cases hr : remote info.prompt with
  | ok content =>
    by_cases ht : pyTruthy (some (pyStrip content)) = true
    · simp [processRow, hinfo, hw, generate_summary_azure, hr, ht]
    · simp [processRow, hinfo, hw, generate_summary_azure, hr, ht]
  | error e =>
    simp [processRow, hinfo, hw, generate_summary_azure, hr, pyTruthy]

/-- A row that prepares successfully contributes a success entry. -/
theorem processRow_ok_pair (remote : String → Except String String)
    (cols : List String) (row : Row) (log : List Event) (info : RowInfo)
    (hinfo : rowInfo cols row = .ok info) :
    processRow remote cols row log =
      (.ok (entryOf (azureResult remote info.prompt)),
       (processRow remote cols row log).2) :=
  Prod.ext (by rw [processRow_fst]; simp [rowResult, hinfo]) rfl

/-!  Claim theorems. -/

/-- C1: For every uploaded workbook with N rows (N ≥ 1) whose columns
include 'salutation_name' and 'gender' (and whose competency cells meet
the numeric-or-missing input contract of §6), running the batch produces a
generated-summaries list with exactly N entries, where the entry at
position k is the result computed for input row k — input row order is
preserved — for every remote oracle, i.e. regardless of how many
individual rows' remote calls fail. -/
theorem c1_batch_preserves_rows (df : DataFrame)
    (remote : String → Except String String) (creds : Credentials)
    (hname : "salutation_name" ∈ df.cols) (hgender : "gender" ∈ df.cols)
    (hwf : ∀ r ∈ df.rows, ∀ c ∈ competencyColumns df.cols, isNumOrNa (r c) = true)
    (hN : 1 ≤ df.rows.length) :
    (generateHandler (some creds) remote df).1 =
      .completed (df.rows.map (fun r => okOr (rowResult remote df.cols r))) ∧
    (df.rows.map (fun r => okOr (rowResult remote df.cols r))).length
      = df.rows.length ∧
    ∀ k r, df.rows.get? k = some r →
      (df.rows.map (fun r2 => okOr (rowResult remote df.cols r2))).get? k =
        some (okOr (rowResult remote df.cols r)) := by
  refine ⟨?_, by simp, ?_⟩
  · exact generateHandler_completed df remote creds hname
      (fun r hr => rowResult_ok remote df.cols r hname hgender (hwf r hr))
  · intro k r hk
    have hk2 : df.rows[k]? = some r := by
      rw [← List.get?_eq_getElem?]; exact hk
    rw [List.get?_eq_getElem?]
    simp [List.getElem?_map, hk2]

/-- C1 witness: a one-row frame processed with an oracle that always
fails still completes with exactly one entry (the failure placeholder). -/
theorem c1_batch_preserves_rows_witness :
    (generateHandler (some cred0) remoteFail df0).1 =
      RunResult.completed [failText] :=
  ((c1_batch_preserves_rows df0 remoteFail cred0 (by decide) (by decide)
      (by decide) (by decide)).1).trans (by rfl)

/-- C2: A row whose Summary Client call fails contributes exactly the
placeholder string as its entry, and the batch still completes with one
entry per row (a single row's failure never aborts the batch). -/
theorem c2_row_failure_isolated (df : DataFrame)
    (remote : String → Except String String) (creds : Credentials)
    (k : Nat) (r : Row) (info : RowInfo) (err : String)
    (hname : "salutation_name" ∈ df.cols) (hgender : "gender" ∈ df.cols)
    (hwf : ∀ r2 ∈ df.rows, ∀ c ∈ competencyColumns df.cols, isNumOrNa (r2 c) = true)
    (hk : df.rows.get? k = some r)
    (hinfo : rowInfo df.cols r = .ok info)
    (hfail : remote info.prompt = .error err) :
    (generateHandler (some creds) remote df).1 =
      .completed (df.rows.map (fun r2 => okOr (rowResult remote df.cols r2))) ∧
    (df.rows.map (fun r2 => okOr (rowResult remote df.cols r2))).get? k =
      some failText ∧
    (df.rows.map (fun r2 => okOr (rowResult remote df.cols r2))).length =
      df.rows.length := by
  have hr : rowResult remote df.cols r = .ok failText := by
    simp [rowResult, hinfo, azureResult, hfail, entryOf, pyTruthy]
  refine ⟨generateHandler_completed df remote creds hname
      (fun r2 hr2 => rowResult_ok remote df.cols r2 hname hgender (hwf r2 hr2)),
    ?_, by simp⟩
  have hk2 : df.rows[k]? = some r := by
    rw [← List.get?_eq_getElem?]; exact hk
  rw [List.get?_eq_getElem?]
  simp [List.getElem?_map, hk2, hr, okOr]

/-- C2 witness: in the one-row frame with the always-failing oracle, the
(sole) row's entry is the placeholder and the batch completes. -/
theorem c2_row_failure_isolated_witness :
    (generateHandler (some cred0) remoteFail df0).1 =
      RunResult.completed
        (df0.rows.map (fun r2 => okOr (rowResult remoteFail df0.cols r2))) ∧
    (df0.rows.map (fun r2 => okOr (rowResult remoteFail df0.cols r2))).get? 0 =
      some failText ∧
    (df0.rows.map (fun r2 => okOr (rowResult remoteFail df0.cols r2))).length =
      df0.rows.length :=
  c2_row_failure_isolated df0 remoteFail cred0 0 row0 info0 "boom"
    (by decide) (by decide) (by decide) rfl rfl rfl

/-- C3 counterexample: a maximum of 3.495 (= 699/200) lies inside the
claim's Rule-B range 2.5 ≤ max < 3.5, yet the template's Rule B — "between
2.5 and 3.49 (inclusive)" — does not cover it, and neither do Rules A and
C: the claim's boundary "2.5 ≤ max < 3.5 selects Rule B" and its assertion
that every possible maximum falls into exactly one tier are both false. -/
theorem c3_gap_counterexample :
    (mkRat 5 2 ≤ mkRat 699 200 ∧ mkRat 699 200 < mkRat 7 2) ∧
    ¬ ruleB (mkRat 699 200) ∧ ¬ ruleA (mkRat 699 200) ∧
    ¬ ruleC (mkRat 699 200) := by
  decide

/-- C3 (amended): the template's tiers, as written, are: Rule A for
max ≥ 3.5, Rule B for 2.5 ≤ max ≤ 3.49 (the 2.5 boundary inclusive, so a
maximum of exactly 2.5 selects Rule B), and Rule C for max < 2.5.  The
three tiers are pairwise disjoint, and every maximum falls into exactly
one tier except those strictly between 3.49 and 3.5, which fall into no
tier.  (The first conjunct anchors the `mkRat` constants to the decimal
literals 3.5, 2.5, 3.49 of the template text.) -/
theorem c3_tier_boundaries (m : ℚ) :
    (mkRat 7 2 = (3.5 : ℚ) ∧ mkRat 5 2 = (2.5 : ℚ) ∧
      mkRat 349 100 = (3.49 : ℚ)) ∧
    ruleB (mkRat 5 2) ∧ ruleC (mkRat 247 100) ∧ ruleA (mkRat 351 100) ∧
    ¬ (ruleA m ∧ ruleB m) ∧ ¬ (ruleB m ∧ ruleC m) ∧ ¬ (ruleA m ∧ ruleC m) ∧
    (ruleA m ∨ ruleB m ∨ ruleC m ∨ (mkRat 349 100 < m ∧ m < mkRat 7 2)) := by
  have e1 : mkRat 7 2 = (3.5 : ℚ) := by rw [Rat.mkRat_eq_div]; norm_num
  have e2 : mkRat 5 2 = (2.5 : ℚ) := by rw [Rat.mkRat_eq_div]; norm_num
  have e3 : mkRat 349 100 = (3.49 : ℚ) := by rw [Rat.mkRat_eq_div]; norm_num
  refine ⟨⟨e1, e2, e3⟩, by decide, by decide, by decide, ?_, ?_, ?_, ?_⟩
  · rintro ⟨hA, hB1, hB2⟩
    have hA2 : mkRat 7 2 ≤ m := hA
    rw [e1] at hA2; rw [e3] at hB2
    linarith
  · rintro ⟨⟨hB1, hB2⟩, hC⟩
    have hC2 : m < mkRat 5 2 := hC
    rw [e2] at hB1; rw [e2] at hC2
    linarith
  · rintro ⟨hA, hC⟩
    have hA2 : mkRat 7 2 ≤ m := hA
    have hC2 : m < mkRat 5 2 := hC
    rw [e1] at hA2; rw [e2] at hC2
    linarith
  · rcases lt_or_le m (mkRat 5 2) with h | h
    · exact Or.inr (Or.inr (Or.inl h))
    · rcases le_or_lt m (mkRat 349 100) with h2 | h2
      · exact Or.inr (Or.inl ⟨h, h2⟩)
      · rcases le_or_lt (mkRat 7 2) m with h3 | h3
        · exact Or.inl h3
        · exact Or.inr (Or.inr (Or.inr ⟨h2, h3⟩))

/-- C3 witness: at the maximum 3 the tier cover applies (3 selects a rule). -/
theorem c3_tier_boundaries_witness :
    ruleA (mkRat 3 1) ∨ ruleB (mkRat 3 1) ∨ ruleC (mkRat 3 1) ∨
      (mkRat 349 100 < mkRat 3 1 ∧ mkRat 3 1 < mkRat 7 2) :=
  (c3_tier_boundaries (mkRat 3 1)).2.2.2.2.2.2.2

/-- C4: the pronoun is derived case-insensitively from the gender cell —
uppercased "M" gives He, "F" gives She, anything else (including a missing
cell, which stringifies to "nan") gives They with the warning flag set —
and in all cases the row is still processed (its entry is produced), the
warning being recorded in the event log in the anomalous case. -/
theorem c4_pronoun_derivation :
    (∀ v : Value, pyUpper (pyStr v) = "M" → pronounOf v = ("He", false)) ∧
    (∀ v : Value, pyUpper (pyStr v) = "F" → pronounOf v = ("She", false)) ∧
    (∀ v : Value, pyUpper (pyStr v) ≠ "M" → pyUpper (pyStr v) ≠ "F" →
      pronounOf v = ("They", true)) ∧
    (∀ (remote : String → Except String String) (cols : List String)
        (row : Row) (log : List Event),
      "salutation_name" ∈ cols → "gender" ∈ cols →
      (∀ c ∈ competencyColumns cols, isNumOrNa (row c) = true) →
      ∃ e log2, processRow remote cols row log = (.ok e, log2) ∧
        ((pronounOf (row "gender")).2 = true →
          Event.warningMsg (warnText (row "gender") (pyStr (row "salutation_name")))
            ∈ log2)) := by
  refine ⟨?_, ?_, ?_, ?_⟩
  · intro v h; simp [pronounOf, h]
  · intro v h; simp [pronounOf, h]
  · intro v h1 h2; simp [pronounOf, h1, h2]
  · intro remote cols row log h1 h2 hwf
    have hinfo := rowInfo_ok cols row h1 h2 hwf
    refine ⟨_, _, processRow_ok_pair remote cols row log _ hinfo, ?_⟩
    intro hflag
    refine processRow_warn_mem remote cols row log _ _ hinfo ?_
    simp [hflag]

/-- C4 witness: lowercase "m" gives He, "F" gives She, a missing cell
gives They with the warning flag. -/
theorem c4_pronoun_derivation_witness :
    pronounOf (Value.str "m") = ("He", false) ∧
    pronounOf (Value.str "F") = ("She", false) ∧
    pronounOf Value.na = ("They", true) :=
  ⟨c4_pronoun_derivation.1 (Value.str "m") (by decide),
   c4_pronoun_derivation.2.1 (Value.str "F") (by decide),
   c4_pronoun_derivation.2.2.1 Value.na (by decide) (by decide)⟩

/-- C5: for a row whose allowlisted cells are numeric or missing, the
extracted competency list holds exactly the (name, score) pairs of
allowlisted frame columns whose cell is present, in the relative order the
columns appear in the frame; every column outside the allowlist and every
allowlisted column with a missing cell is excluded; and the rendered
`scores_data` lines are exactly the rendering of those pairs. -/
theorem c5_competency_extraction (cols : List String) (row : Row)
    (hwf : ∀ c ∈ competencyColumns cols, isNumOrNa (row c) = true) :
    (∀ c q, (c, q) ∈ rowScores cols row ↔
      c ∈ cols ∧ c ∈ all_known_competencies ∧ row c = .num q) ∧
    List.Sublist ((rowScores cols row).map Prod.fst) cols ∧
    scoresDataE cols row =
      .ok ((rowScores cols row).map (fun p => renderScore p.1 p.2)) :=
  ⟨fun c q => mem_rowScores cols row c q,
   rowScores_fst_sublist cols row,
   scoresLinesE_eq cols row (competencyColumns cols) hwf⟩

/-- C5 witness: in the concrete row, the populated allowlisted cell is
extracted. -/
theorem c5_competency_extraction_witness :
    ("Effective Collaborator", mkRat 247 100) ∈ rowScores cols1 row1 :=
  ((c5_competency_extraction cols1 row1 (by decide)).1
      "Effective Collaborator" (mkRat 247 100)).mpr
    ⟨by decide, by decide, rfl⟩

/-- C6: when the uploaded frame lacks the 'salutation_name' column the
handler halts with the single batch-level error message; the event log
shows zero remote request attempts and exactly one error report. -/
theorem c6_missing_column_halts (df : DataFrame)
    (remote : String → Except String String) (creds : Credentials)
    (h : "salutation_name" ∉ df.cols) :
    generateHandler (some creds) remote df =
      (.missingColumn, [Event.errorMsg missingColText]) ∧
    callCount (generateHandler (some creds) remote df).2 = 0 ∧
    errCount (generateHandler (some creds) remote df).2 = 1 := by
  have hh : generateHandler (some creds) remote df =
      (.missingColumn, [Event.errorMsg missingColText]) := by
    simp only [generateHandler]
    rw [if_neg h]
  refine ⟨hh, ?_, ?_⟩
  · rw [hh]; decide
  · rw [hh]; decide

/-- C6 witness: the concrete frame without the name column halts with the
single error and no calls. -/
theorem c6_missing_column_halts_witness :
    generateHandler (some cred0) remoteFail dfNoName =
      (RunResult.missingColumn, [Event.errorMsg missingColText]) ∧
    callCount (generateHandler (some cred0) remoteFail dfNoName).2 = 0 ∧
    errCount (generateHandler (some cred0) remoteFail dfNoName).2 = 1 :=
  c6_missing_column_halts dfNoName remoteFail cred0 (by decide)

/-- C7: the Summary Client makes exactly one request attempt per
invocation; on success it returns the stripped response text, and on any
exception it surfaces the user-visible error message and returns the
failure signal `none` to the caller — no exception propagates. -/
theorem c7_summary_client_contract (remote : String → Except String String)
    (prompt : String) (log : List Event) :
    (∀ content, remote prompt = .ok content →
      generate_summary_azure remote prompt log =
        (some (pyStrip content), log ++ [Event.apiCall prompt])) ∧
    (∀ e, remote prompt = .error e →
      generate_summary_azure remote prompt log =
        (none, log ++ [Event.apiCall prompt, Event.errorMsg (azureErrText e)])) ∧
    callCount (generate_summary_azure remote prompt log).2 =
      callCount log + 1 := by
  refine ⟨?_, ?_, ?_⟩
  · intro content h; simp [generate_summary_azure, h]
  · intro e h; simp [generate_summary_azure, h]
  · cases h : remote prompt with
    | ok content =>
        simp [generate_summary_azure, h, callCount, isCallEvent,
          List.filter_append]
    | error e =>
        simp [generate_summary_azure, h, callCount, isCallEvent,
          List.filter_append]

/-- C7 witness: one successful and one failing invocation, each with
exactly one recorded request attempt. -/
theorem c7_summary_client_contract_witness :
    generate_summary_azure remoteEcho "p" [] =
      (some (pyStrip " A fine summary. "), [Event.apiCall "p"]) ∧
    generate_summary_azure remoteFail "p" [] =
      (none, [Event.apiCall "p", Event.errorMsg (azureErrText "boom")]) :=
  by
  constructor
  · have h := (c7_summary_client_contract remoteEcho "p" []).1 " A fine summary. " rfl
    simpa using h
  · have h := (c7_summary_client_contract remoteFail "p" []).2.1 "boom" rfl
    simpa using h

/-- C8 counterexample: on a frame that already carries an
"Executive Summary" column, the assignment replaces that column's values
in place — the output has no appended column and the original cell's value
is not preserved, contradicting the claim's "every column … with unchanged
values … plus exactly one appended column". -/
theorem c8_overwrite_counterexample :
    (outputDf dfES ["new"]).cols = dfES.cols ∧
    dfES.cols ≠ dfES.cols ++ ["Executive Summary"] ∧
    ((outputDf dfES ["new"]).rows.get? 0).map (fun f => f "Executive Summary") =
      some (Value.str "new") ∧
    rowES "Executive Summary" = Value.str "old" ∧
    Value.str "new" ≠ Value.str "old" := by
  exact ⟨rfl, by decide, rfl, rfl, by decide⟩

/-- C8 (amended): provided the input frame has no column already named
"Executive Summary", the output frame is the input's columns plus exactly
that one appended column, with the same number of rows in the same order,
every original cell unchanged, and the appended cell of row k holding the
k-th generated summary. -/
theorem c8_output_frame (df : DataFrame) (summaries : List String)
    (hES : "Executive Summary" ∉ df.cols)
    (hlen : summaries.length = df.rows.length) :
    (outputDf df summaries).cols = df.cols ++ ["Executive Summary"] ∧
    (outputDf df summaries).rows.length = df.rows.length ∧
    ∀ k r s, df.rows.get? k = some r → summaries.get? k = some s →
      ((outputDf df summaries).rows.get? k).map (fun f => f "Executive Summary") =
        some (Value.str s) ∧
      ∀ c, c ≠ "Executive Summary" →
        ((outputDf df summaries).rows.get? k).map (fun f => f c) = some (r c) := by
  refine ⟨?_, ?_, ?_⟩
  · simp [outputDf, assignColumn, hES]
  · simp [outputDf, assignColumn, hlen]
  · intro k r s hk hs
    have hk2 : df.rows[k]? = some r := by
      rw [← List.get?_eq_getElem?]; exact hk
    have hs2 : summaries[k]? = some s := by
      rw [← List.get?_eq_getElem?]; exact hs
    have hz : (outputDf df summaries).rows.get? k =
        some (updateCell r "Executive Summary" (Value.str s)) := by
      rw [List.get?_eq_getElem?]
      simp [outputDf, assignColumn, List.getElem?_zipWith', hk2, hs2]
    constructor
    · rw [hz]; simp [updateCell]
    · intro c hc; rw [hz]; simp [updateCell, hc]

/-- C8 witness: appending to the concrete frame without an
"Executive Summary" column. -/
theorem c8_output_frame_witness :
    (outputDf df0 ["done"]).cols = df0.cols ++ ["Executive Summary"] ∧
    (outputDf df0 ["done"]).rows.length = df0.rows.length ∧
    ((outputDf df0 ["done"]).rows.get? 0).map (fun f => f "Executive Summary") =
      some (Value.str "done") := by
  have h := c8_output_frame df0 ["done"] (by decide) (by decide)
  exact ⟨h.1, h.2.1, (h.2.2 0 row0 "done" rfl rfl).1⟩

/-- C9 counterexample: with display name "Zq" (which does not occur in the
template's fixed text), the portion of the rendered prompt corresponding
to the opening-sentence instruction — directive 1, the CRITICAL OPENING
SENTENCE PROTOCOL — contains the name six times (once per opening
template), not exactly once. -/
theorem c9_name_count_counterexample :
    strCount (openingSentenceProtocol "Zq") "Zq" = 6 ∧
    strCount (openingSentenceProtocol "Zq") "Zq" ≠ 1 := by
  have h : strCount (openingSentenceProtocol "Zq") "Zq" = 6 := by decide
  exact ⟨h, by rw [h]; decide⟩

/-- C9 (amended): the opening-sentence-protocol portion of the rendered
prompt interpolates the display name once in each of its six fixed
opening templates (six occurrences for a name not occurring in the fixed
text), while the name-and-pronoun-usage directive contains the name
exactly once; the rendered prompt decomposes into its five sections, and
it names the supplied pronoun as the required referent for every
reference after the first sentence via the directive "Thereafter, use the
pronoun **<pronoun>**." placed right after the name-usage sentence. -/
theorem c9_prompt_name_pronoun :
    strCount (openingSentenceProtocol "Zq") "Zq" = 6 ∧
    strCount (namePronounUsage "Zq" "He") "Zq" = 1 ∧
    (∀ n p d, create_master_prompt n p d =
      promptPre n d ++ (openingSentenceProtocol n ++ (structureAfterOpening ++
        (namePronounUsage n p ++ promptPost n)))) ∧
    (∀ n p d, ∃ pre post, create_master_prompt n p d =
      pre ++ (n ++ ("**, only in the first sentence (if applicable). " ++
        pronounDirective p)) ++ post) := by
  refine ⟨by decide, by decide, ?_, ?_⟩
  · intro n p d
    simp [create_master_prompt, String.append_assoc]
  · intro n p d
    refine ⟨promptPre n d ++ openingSentenceProtocol n ++ structureAfterOpening ++
      ("3.  **Name and Pronoun Usage:**\n" ++
       "    * Use the candidate\x27s full salutation name, **"),
      ("\n" ++ "\n") ++ promptPost n, ?_⟩
    simp [create_master_prompt, namePronounUsage, String.append_assoc]

/-- C10: a remote call that succeeds but yields a response whose stripped
text is empty is treated as a row failure: the truthiness check rejects
the empty string and the row's entry is the failure placeholder. -/
theorem c10_blank_summary_failure (remote : String → Except String String)
    (cols : List String) (row : Row) (log : List Event) (info : RowInfo)
    (content : String)
    (hinfo : rowInfo cols row = .ok info)
    (hok : remote info.prompt = .ok content)
    (hblank : pyStrip content = "") :
    (processRow remote cols row log).1 = .ok failText ∧
    azureResult remote info.prompt = some "" ∧
    pyTruthy (some "") = false := by
  have ha : azureResult remote info.prompt = some "" := by
    simp [azureResult, hok, hblank]
  have h1 : (processRow remote cols row log).1 =
      .ok (entryOf (azureResult remote info.prompt)) := by
    rw [processRow_fst]; simp [rowResult, hinfo]
  refine ⟨?_, ha, rfl⟩
  rw [h1, ha]
  rfl

/-- C10 witness: the blank-responding oracle makes the concrete row's
entry the failure placeholder. -/
theorem c10_blank_summary_failure_witness :
    (processRow remoteBlank df0.cols row0 []).1 = .ok failText ∧
    azureResult remoteBlank info0.prompt = some "" ∧
    pyTruthy (some "") = false :=
  c10_blank_summary_failure remoteBlank df0.cols row0 [] info0 "" rfl rfl rfl

end DGE
